import Mathlib

/-!
Verification development for the ExoNova backend prediction core
(`src/ml/tabular_classifier.py` and `src/ml/predictor.py`).

Modelling conventions for the shallow embedding:

* Python floats are `PyFloat`: either the not-a-number sentinel `nan`
  (produced by `math.nan` and detected by the `val != val` check) or a
  rational value.  No floating-point arithmetic occurs in the modelled
  code — values are only stored, looked up, compared and sorted — so
  rationals are an exact carrier for the numeric values.
* Python dicts are insertion-ordered association lists
  (`List (String × _)`); `dictGet` is first-match lookup and `dictSet`
  is update-in-place-or-append, matching CPython dict semantics for
  key-distinct dictionaries (all dictionaries in the modelled code have
  distinct keys).
* Python exceptions are `PyExc`, with one constructor per exception
  class appearing in the code (`ValueError`, `FileNotFoundError`, bare
  `Exception`); an `IndexError` raised by list indexing inside a
  `try ... except Exception` block is modelled as a generic `exception`
  since only its message is observable after the wrap.
* The serialized classifier and SHAP-explainer artifacts are opaque
  behaviour records (`ModelHandle`, `ExplainerHandle`): the classifier
  exposes `predict_proba` and an optional `feature_importances_`
  vector, the explainer exposes `shap_values` which may return a single
  matrix or a per-class list of matrices.
* Disk state is `LoadEnv`: for each artifact path, `none` means the
  file does not exist, `some (.error msg)` means both deserialization
  strategies (joblib, then pickle) fail with message `msg`, and
  `some (.ok h)` means some strategy yields handle `h`.
* The mock generator `predict_tabular_mock` seeds a PRNG from the
  input; it is treated as an opaque deterministic function parameter
  since only the routing of exceptions to it is under verification.
-/

namespace ExoNova

/-- A Python float value: the not-a-number sentinel or a rational. -/
inductive PyFloat where
  | nan : PyFloat
  | val : Rat → PyFloat
deriving DecidableEq, Repr

/-- The `val = float(x); if val != val: val = 0.0` coercion used in the
SHAP tier: not-a-number becomes `0.0`. -/
def coerceNanZero : PyFloat → Rat
  | .nan => 0
  | .val q => q

/-- Python exceptions observable in the modelled code, by class. -/
inductive PyExc where
  | valueError : String → PyExc
  | fileNotFound : String → PyExc
  | exception : String → PyExc
deriving DecidableEq, Repr

/-- `str(e)` on a Python exception constructed with a single message. -/
def PyExc.message : PyExc → String
  | .valueError m => m
  | .fileNotFound m => m
  | .exception m => m

/-- First-match lookup in an insertion-ordered dict. -/
def dictGet (d : List (String × α)) (k : String) : Option α :=
  match d with
  | [] => none
  | p :: rest => if p.1 = k then some p.2 else dictGet rest k

/-- CPython dict assignment: update in place if the key exists,
otherwise append at the end. -/
def dictSet (d : List (String × α)) (k : String) (v : α) : List (String × α) :=
  if d.any (fun p => p.1 = k) then
    d.map (fun p => if p.1 = k then (k, v) else p)
  else
    d ++ [(k, v)]

/-- Python list indexing `l[i]`, raising `IndexError` out of range
(observed as a generic exception after the wrap in `predict`). -/
def pyIndex (l : List α) (i : Nat) : Except PyExc α :=
  match l.get? i with
  | some x => .ok x
  | none => .error (.exception "list index out of range")

/-- Python `max` over a list of floats (`ValueError` on empty). -/
def pyMax (l : List Rat) : Except PyExc Rat :=
  match l with
  | [] => .error (.valueError "max() arg is an empty sequence")
  | x :: xs => .ok (xs.foldl max x)

/-- `TabularClassifier.EXPECTED_FEATURES`: the 15 feature names in
model order. -/
def EXPECTED_FEATURES : List String :=
  [ "pl_orbper", "pl_orbsmax", "pl_eqt", "pl_insol", "pl_imppar",
    "pl_trandep", "pl_trandur", "pl_ratdor", "pl_ratror", "st_teff",
    "st_rad", "st_mass", "st_met", "st_logg", "sy_imag" ]

/-- The `k.startswith("sy_") and k.endswith("mag")` test selecting the
magnitude-band alias family (prefix/suffix computed over the character
sequence). -/
def isSyMag (k : String) : Bool :=
  "sy_".data.isPrefixOf k.data && "mag".data.isSuffixOf k.data

/-- `{k: v for k, v in input_data.items() if v is not None}`: drop the
explicitly-null entries, preserving insertion order. -/
def filterNull (input : List (String × Option PyFloat)) : List (String × PyFloat) :=
  input.filterMap (fun kv => kv.2.map (fun v => (kv.1, v)))

/-- The `sy_mags` sub-dict of a filtered input. -/
def syMags (filtered : List (String × PyFloat)) : List (String × PyFloat) :=
  filtered.filter (fun kv => isSyMag kv.1)

/-- The alias-resolution block of `_map_and_build_features`: prefer
`sy_imag` if present among the magnitude fields, otherwise assign
`sy_imag` the first magnitude value in dict order
(`next(iter(sy_mags.values()))`); no magnitude fields leaves the dict
unchanged. -/
def resolveSyMag (filtered : List (String × PyFloat)) : List (String × PyFloat) :=
  match dictGet (syMags filtered) "sy_imag" with
  | some v => dictSet filtered "sy_imag" v
  | none =>
    match syMags filtered with
    | [] => filtered
    | kv :: _ => dictSet filtered "sy_imag" kv.2

/-- `TabularClassifier._map_and_build_features`: null-filter the raw
input, resolve the magnitude alias family, then read the 15 expected
features in order with `math.nan` for absences. -/
def _map_and_build_features (input : List (String × Option PyFloat)) :
    List PyFloat × List String :=
  let filtered := resolveSyMag (filterNull input)
  (EXPECTED_FEATURES.map (fun name => (dictGet filtered name).getD PyFloat.nan),
   EXPECTED_FEATURES)

/-- The value the explainer returns from `shap_values`: a single matrix
(ndarray, one row per input) or a Python list of per-class matrices. -/
inductive ShapOut where
  | arr : List (List PyFloat) → ShapOut
  | perClass : List (List (List PyFloat)) → ShapOut

/-- Opaque classifier artifact: `predict_proba` over a single feature
vector (returning a matrix of class-probability rows) and the optional
intrinsic `feature_importances_` attribute (`none` models the absence
of the attribute, i.e. `hasattr` false). -/
structure ModelHandle where
  predict_proba : List PyFloat → Except PyExc (List (List Rat))
  feature_importances_ : Option (List Rat)

/-- Opaque SHAP-explainer artifact. -/
structure ExplainerHandle where
  shap_values : List PyFloat → Except PyExc ShapOut

/-- Instance state of `TabularClassifier` (the fields set by
`__init__`, plus the `_initialized` re-entry guard). -/
structure ClassifierState where
  _prediction_model : Option ModelHandle
  _shap_explainer : Option ExplainerHandle
  _models_loaded : Bool
  _initDone : Bool

/-- Disk environment: each artifact is absent (`none`), present but
undeserializable by both strategies (`some (.error msg)`), or loadable
(`some (.ok handle)`). -/
structure LoadEnv where
  classifierFile : Option (Except String ModelHandle)
  explainerFile : Option (Except String ExplainerHandle)

/-- The resolved `models/MAutoencoder.pkl` path (directory prefix of the
runtime path resolution is not modelled). -/
def _prediction_model_path : String := "models/MAutoencoder.pkl"

/-- `TabularClassifier._load_models`: no-op when already loaded;
`FileNotFoundError` when the mandatory classifier file is absent;
generic wrapped exception when both deserialization strategies fail;
otherwise set both handles (explainer degraded to `None` when absent or
unloadable) and the loaded flag.  On any error the instance state is
returned unchanged. -/
def _load_models (env : LoadEnv) (st : ClassifierState) :
    Except PyExc Unit × ClassifierState :=
  if st._models_loaded then (.ok (), st)
  else
    match env.classifierFile with
    | none =>
      (.error (.fileNotFound ("Prediction model not found at: " ++ _prediction_model_path)), st)
    | some (.error msg) =>
      (.error (.exception ("Model loading error: " ++ msg)), st)
    | some (.ok m) =>
      let explainer : Option ExplainerHandle :=
        match env.explainerFile with
        | some (.ok e) => some e
        | _ => none
      (.ok (), { st with
        _prediction_model := some m,
        _shap_explainer := explainer,
        _models_loaded := true })

/-- `TabularClassifier.ensure_loaded`. -/
def ensure_loaded (env : LoadEnv) (st : ClassifierState) :
    Except PyExc Unit × ClassifierState :=
  if st._models_loaded then (.ok (), st) else _load_models env st

/-- `TabularClassifier.is_loaded`. -/
def is_loaded (st : ClassifierState) : Bool := st._models_loaded

/-- Number of disk-load-path executions a single `ensure_loaded` (or
`predict`) call performs from state `st`: the load body — beginning
with the file-existence check — runs exactly when the loaded flag is
false. -/
def diskLoadRuns (st : ClassifierState) : Nat :=
  if st._models_loaded then 0 else 1

/-- One step of a stable insertion sort by descending absolute value:
`x` is placed before the first element whose absolute value does not
exceed `x`'s, so an earlier element precedes later equal-magnitude
elements. -/
def insertAbsDesc (x : String × Rat) : List (String × Rat) → List (String × Rat)
  | [] => [x]
  | y :: ys => if |y.2| ≤ |x.2| then x :: y :: ys else y :: insertAbsDesc x ys

/-- `dict(sorted(local.items(), key=lambda x: abs(x[1]), reverse=True))`:
stable sort of the weight pairs by descending absolute value (CPython
`sorted` is a stable sort; modelled as a stable insertion sort). -/
def sortByAbsDesc (l : List (String × Rat)) : List (String × Rat) :=
  l.foldr insertAbsDesc []

/-- SHAP tier of `_compute_attribute_weights`: call the explainer,
select the positive-class matrix when the result is a per-class list,
take row 0, pair entries positionally with feature names (skipping
names beyond the row length), coerce not-a-number to zero, and sort by
descending absolute value.  Any raised exception surfaces as `.error`
(absorbed by the caller). -/
def tier1Weights (ex : ExplainerHandle) (fv : List PyFloat) (names : List String) :
    Except PyExc (List (String × Rat)) :=
  match ex.shap_values fv with
  | .error e => .error e
  | .ok sv =>
    match (match sv with
           | .perClass arrs => if arrs.length > 1 then pyIndex arrs 1 else pyIndex arrs 0
           | .arr rows => (.ok rows : Except PyExc (List (List PyFloat)))) with
    | .error e => .error e
    | .ok mat =>
      match pyIndex mat 0 with
      | .error e => .error e
      | .ok row =>
        .ok (sortByAbsDesc (names.enum.filterMap (fun p =>
          (row.get? p.1).map (fun x => (p.2, coerceNanZero x)))))

/-- Intrinsic-importance tier of `_compute_attribute_weights`: when the
classifier exposes `feature_importances_`, pair it positionally with
the feature names (absent positions become `0.0`) and sort by
descending absolute value; `none` models `hasattr` false. -/
def tier2Weights (m : ModelHandle) (names : List String) :
    Option (List (String × Rat)) :=
  m.feature_importances_.map (fun importances =>
    sortByAbsDesc (names.enum.map (fun p => (p.2, importances.getD p.1 0))))

/-- Neutral tier: every feature name maps to zero. -/
def zerosWeights (names : List String) : List (String × Rat) :=
  names.map (fun n => (n, 0))

/-- The fallback taken when the SHAP tier is unavailable or raised. -/
def fallbackWeights (m? : Option ModelHandle) (names : List String) :
    List (String × Rat) :=
  match m? with
  | some m => (tier2Weights m names).getD (zerosWeights names)
  | none => zerosWeights names

/-- `TabularClassifier._compute_attribute_weights`: SHAP tier when an
explainer handle exists and raises nothing, else the intrinsic
importance tier, else zeros.  Total — no exception escapes. -/
def _compute_attribute_weights (st : ClassifierState) (fv : List PyFloat)
    (names : List String) : List (String × Rat) :=
  match st._shap_explainer with
  | some ex =>
    match tier1Weights ex fv names with
    | .ok w => w
    | .error _ => fallbackWeights st._prediction_model names
  | none => fallbackWeights st._prediction_model names

/-- The message of the invariant-violation `Exception` raised when the
classifier handle is null despite a loaded state. -/
def invariantViolationMsg : String :=
  "Prediction model is not loaded. Please check model path and loading logic."

/-- The body of the `try` block in `TabularClassifier.predict`: map
features, check the classifier handle (raising the invariant-violation
`Exception` when it is `None` despite the loaded state), invoke
`predict_proba`, take row 0, index 1 as the predicted value, the row
maximum as confidence, and compute the attribute weights. -/
def predictBody (st : ClassifierState) (input : List (String × Option PyFloat)) :
    Except PyExc (Rat × Rat × List (String × Rat)) :=
  match _map_and_build_features input with
  | (feature_values, feature_names_used) =>
    match st._prediction_model with
    | none =>
      .error (.exception invariantViolationMsg)
    | some m =>
      match m.predict_proba feature_values with
      | .error e => .error e
      | .ok proba =>
        match pyIndex proba 0 with
        | .error e => .error e
        | .ok row =>
          match pyIndex row 1 with
          | .error e => .error e
          | .ok predicted_value =>
            match pyMax row with
            | .error e => .error e
            | .ok confidence =>
              .ok (predicted_value, confidence,
                   _compute_attribute_weights st feature_values feature_names_used)

/-- `TabularClassifier.predict`: load if needed (load errors propagate
unwrapped), then run the prediction body, wrapping any exception it
raises into a generic `Exception("Prediction error: ...")`. -/
def predict (env : LoadEnv) (st : ClassifierState)
    (input : List (String × Option PyFloat)) :
    Except PyExc (Rat × Rat × List (String × Rat)) × ClassifierState :=
  let loaded := if st._models_loaded then (.ok (), st) else _load_models env st
  match loaded with
  | (.error e, st₁) => (.error e, st₁)
  | (.ok _, st₁) =>
    match predictBody st₁ input with
    | .ok r => (.ok r, st₁)
    | .error e => (.error (.exception ("Prediction error: " ++ e.message)), st₁)

/-- `predictor.predict_tabular`: call the classifier; re-raise
`ValueError`, fall back to the mock triple on `FileNotFoundError` or
any other exception.  The mock generator is an opaque deterministic
function parameter. -/
def predict_tabular (env : LoadEnv) (st : ClassifierState)
    (mock : List (String × Option PyFloat) → Rat × Rat × List (String × Rat))
    (input : List (String × Option PyFloat)) :
    Except PyExc (Rat × Rat × List (String × Rat)) × ClassifierState :=
  match predict env st input with
  | (.ok r, st₁) => (.ok r, st₁)
  | (.error (.valueError m), st₁) => (.error (.valueError m), st₁)
  | (.error _, st₁) => (.ok (mock input), st₁)

/-- Process-level state for the singleton pattern: the class attribute
`_instance` and a count of constructions performed. -/
structure ProcState where
  inst : Option ClassifierState
  creations : Nat

/-- The instance state after `__init__` has run on a fresh instance:
no handles, loaded flag false, re-entry guard set. -/
def freshInstance : ClassifierState :=
  { _prediction_model := none, _shap_explainer := none,
    _models_loaded := false, _initDone := true }

/-- `TabularClassifier.__init__`: no-op on an already-initialized
instance, otherwise set the instance fields. -/
def pyInit (i : ClassifierState) : ClassifierState :=
  if i._initDone then i else freshInstance

/-- `get_classifier` / `TabularClassifier.get_instance`, i.e. the call
`TabularClassifier()`: `__new__` returns the stored instance, creating
one (with the guard unset) only when none exists, then `__init__` runs
on it. -/
def get_classifier (p : ProcState) : ClassifierState × ProcState :=
  match p.inst with
  | some i =>
    let i₁ := pyInit i
    (i₁, { p with inst := some i₁ })
  | none =>
    let i₁ := pyInit { _prediction_model := none, _shap_explainer := none,
                       _models_loaded := false, _initDone := false }
    (i₁, { inst := some i₁, creations := p.creations + 1 })

/-- Process state at interpreter start: no instance, no constructions. -/
def procInit : ProcState := { inst := none, creations := 0 }

/-- Run `n` successive calls to the singleton accessor, collecting the
returned instances. -/
def runCalls : Nat → ProcState → List ClassifierState × ProcState
  | 0, p => ([], p)
  | n + 1, p =>
    let (i, p₁) := get_classifier p
    let (rest, p₂) := runCalls n p₁
    (i :: rest, p₂)

/-! ### Statement-level predicates and concrete instances used in the
claims, their witnesses and counterexamples -/

/-- Number of non-null entries of the raw input whose key is one of the
15 expected feature names. -/
def nonNullExpectedCount (input : List (String × Option PyFloat)) : Nat :=
  (filterNull input).countP (fun kv => decide (kv.1 ∈ EXPECTED_FEATURES))

/-- The SHAP tier yields no result: no explainer handle, or the
explainer computation raised. -/
def tier1Unavailable (st : ClassifierState) (fv : List PyFloat)
    (names : List String) : Prop :=
  st._shap_explainer = none
  ∨ ∃ ex e, st._shap_explainer = some ex ∧ tier1Weights ex fv names = .error e

/-- The intrinsic-importance tier yields no result: no classifier
handle, or no `feature_importances_` attribute. -/
def tier2Unavailable (st : ClassifierState) : Prop :=
  st._prediction_model = none
  ∨ ∃ m, st._prediction_model = some m ∧ m.feature_importances_ = none

/-- Same Python exception class (the only type-level discriminator
available to an `except` clause). -/
def sameExcClass : PyExc → PyExc → Bool
  | .valueError _, .valueError _ => true
  | .fileNotFound _, .fileNotFound _ => true
  | .exception _, .exception _ => true
  | _, _ => false

/-- A loadable classifier artifact answering `[0.3, 0.7]` on every
input, with no intrinsic importances. -/
def okModel : ModelHandle :=
  { predict_proba := fun _ => .ok [[3/10, 7/10]], feature_importances_ := none }

/-- Disk environment with neither artifact file present. -/
def envNoFiles : LoadEnv := { classifierFile := none, explainerFile := none }

/-- Disk environment where the classifier loads and the explainer file
is absent. -/
def envLoadable : LoadEnv :=
  { classifierFile := some (.ok okModel), explainerFile := none }

/-- Instance state after a successful load of `okModel` with no
explainer. -/
def okLoadedState : ClassifierState :=
  { _prediction_model := some okModel, _shap_explainer := none,
    _models_loaded := true, _initDone := true }

/-- Raw input with one non-null expected-feature entry and one
magnitude-band alias entry. -/
def c3Input : List (String × Option PyFloat) :=
  [("pl_orbper", some (.val 1)), ("sy_gmag", some (.val 5))]

/-- Raw input with two non-canonical magnitude-band alias entries. -/
def c4Input : List (String × Option PyFloat) :=
  [("sy_gmag", some (.val 2)), ("sy_zmag", some (.val 3))]

/-- An explainer returning a single attribution matrix with one
three-entry row containing a not-a-number attribution. -/
def c5Explainer : ExplainerHandle :=
  { shap_values := fun _ => .ok (.arr [[.val 1, .val (-3), .nan]]) }

/-- A classifier exposing the intrinsic importance vector `[2, -5]`. -/
def c5Model : ModelHandle :=
  { predict_proba := fun _ => .ok [[3/10, 7/10]], feature_importances_ := some [2, -5] }

/-- A three-name feature list for the sorting witness. -/
def c5Names : List String := ["a", "b", "c"]

/-- A classifier whose `predict_proba` raises a routine exception. -/
def failModel : ModelHandle :=
  { predict_proba := fun _ => .error (.exception "boom"), feature_importances_ := none }

/-- Corrupted loader state: loaded flag set, classifier handle null. -/
def invariantBrokenState : ClassifierState :=
  { _prediction_model := none, _shap_explainer := none,
    _models_loaded := true, _initDone := true }

/-- Loaded state whose classifier raises on every prediction. -/
def routineFailState : ClassifierState :=
  { _prediction_model := some failModel, _shap_explainer := none,
    _models_loaded := true, _initDone := true }

/-- A concrete stand-in for the mock prediction generator. -/
def c10Mock (_ : List (String × Option PyFloat)) :
    Rat × Rat × List (String × Rat) :=
  (1/2, 3/5, [])

/-- Raw input carrying a single expected feature and nothing else. -/
def c3WitnessInput : List (String × Option PyFloat) :=
  [("pl_orbper", some (.val 1))]

/-- Expected SHAP-tier output for `c5Explainer` over `c5Names`. -/
def c5W : List (String × Rat) := [("b", -3), ("a", 1), ("c", 0)]

/-- Expected intrinsic-tier output for `c5Model` over `c5Names`. -/
def c5W₂ : List (String × Rat) := [("b", -5), ("a", 2), ("c", 0)]

/-! ### Helper lemmas -/

theorem dictGet_nil (k : String) : dictGet ([] : List (String × α)) k = none := rfl

theorem dictGet_map_update_ne (d : List (String × α)) (k k₁ : String) (v : α)
    (h : k₁ ≠ k) :
    dictGet (d.map (fun p => if p.1 = k then (k, v) else p)) k₁ = dictGet d k₁ := by
  induction d with
  | nil => rfl
  | cons hd tl ih =>
    rw [List.map_cons]
    simp only [dictGet]
    by_cases hk : hd.1 = k
    · rw [if_pos hk]
      rw [if_neg (show ¬ ((k, v).1 = k₁) from fun hh => h hh.symm)]
      rw [if_neg (fun hh : hd.1 = k₁ => h (hh.symm.trans hk))]
      exact ih
    · rw [if_neg hk]
      by_cases hk₁ : hd.1 = k₁
      · rw [if_pos hk₁, if_pos hk₁]
      · rw [if_neg hk₁, if_neg hk₁]
        exact ih

theorem dictGet_append_single_ne (d : List (String × α)) (k k₁ : String) (v : α)
    (h : k₁ ≠ k) :
    dictGet (d ++ [(k, v)]) k₁ = dictGet d k₁ := by
  induction d with
  | nil =>
    simp only [List.nil_append, dictGet]
    rw [if_neg (show ¬ ((k, v).1 = k₁) from fun hh => h hh.symm)]
  | cons hd tl ih =>
    rw [List.cons_append]
    simp only [dictGet]
    by_cases hk₁ : hd.1 = k₁
    · rw [if_pos hk₁, if_pos hk₁]
    · rw [if_neg hk₁, if_neg hk₁]
      exact ih

theorem dictGet_dictSet_ne (d : List (String × α)) (k k₁ : String) (v : α)
    (h : k₁ ≠ k) :
    dictGet (dictSet d k v) k₁ = dictGet d k₁ := by
  unfold dictSet
  split
  · exact dictGet_map_update_ne d k k₁ v h
  · exact dictGet_append_single_ne d k k₁ v h

theorem dictGet_map_update_same (d : List (String × α)) (k : String) (v : α)
    (hany : (d.any fun p => p.1 = k) = true) :
    dictGet (d.map (fun p => if p.1 = k then (k, v) else p)) k = some v := by
  induction d with
  | nil => simp at hany
  | cons hd tl ih =>
    rw [List.map_cons]
    simp only [dictGet]
    by_cases hk : hd.1 = k
    · rw [if_pos hk]
      rw [if_pos (show (k, v).1 = k from rfl)]
    · rw [if_neg hk, if_neg hk]
      apply ih
      simp only [List.any_cons, Bool.or_eq_true, decide_eq_true_eq] at hany
      rcases hany with hc | htl
      · exact absurd hc hk
      · simpa using htl

theorem dictGet_append_single_same (d : List (String × α)) (k : String) (v : α)
    (hany : (d.any fun p => p.1 = k) = false) :
    dictGet (d ++ [(k, v)]) k = some v := by
  induction d with
  | nil =>
    simp [dictGet]
  | cons hd tl ih =>
    simp only [List.any_cons, Bool.or_eq_false_iff, decide_eq_false_iff_not] at hany
    rw [List.cons_append]
    simp only [dictGet]
    rw [if_neg hany.1]
    apply ih
    simpa using hany.2

theorem dictGet_dictSet_same (d : List (String × α)) (k : String) (v : α) :
    dictGet (dictSet d k v) k = some v := by
  unfold dictSet
  split
  · rename_i hany
    exact dictGet_map_update_same d k v (by simpa using hany)
  · rename_i hany
    exact dictGet_append_single_same d k v (by simpa using Bool.of_not_eq_true hany)

theorem dictGet_some_mem (d : List (String × α)) (k : String) (v : α)
    (h : dictGet d k = some v) : (k, v) ∈ d := by
  induction d with
  | nil => simp [dictGet] at h
  | cons hd tl ih =>
    simp only [dictGet] at h
    by_cases hk : hd.1 = k
    · rw [if_pos hk] at h
      injection h with hh
      have hdv : hd = (k, v) := by
        cases hd
        simp_all
      rw [hdv]
      exact List.mem_cons_self _ _
    · rw [if_neg hk] at h
      exact List.mem_cons_of_mem _ (ih h)

theorem syMags_dictGet (d : List (String × PyFloat)) :
    dictGet (syMags d) "sy_imag" = dictGet d "sy_imag" := by
  induction d with
  | nil => rfl
  | cons hd tl ih =>
    by_cases hmag : isSyMag hd.1
    · rw [syMags, List.filter_cons, if_pos (by simpa using hmag)]
      simp only [dictGet]
      by_cases hk : hd.1 = "sy_imag"
      · rw [if_pos hk, if_pos hk]
      · rw [if_neg hk, if_neg hk]
        exact ih
    · have hk : hd.1 ≠ "sy_imag" := by
        intro hh
        rw [hh] at hmag
        exact hmag (by decide)
      rw [syMags, List.filter_cons,
        if_neg (by simpa using hmag)]
      simp only [dictGet]
      rw [if_neg hk]
      exact ih

theorem mem_insertAbsDesc (z x : String × Rat) (l : List (String × Rat)) :
    z ∈ insertAbsDesc x l ↔ z = x ∨ z ∈ l := by
  induction l with
  | nil => simp [insertAbsDesc]
  | cons y ys ih =>
    rw [insertAbsDesc]
    by_cases hxy : |y.2| ≤ |x.2|
    · rw [if_pos hxy]
      simp [List.mem_cons]
    · rw [if_neg hxy]
      simp only [List.mem_cons, ih]
      tauto

theorem insertAbsDesc_pairwise (x : String × Rat) (l : List (String × Rat))
    (h : l.Pairwise (fun a b => |b.2| ≤ |a.2|)) :
    (insertAbsDesc x l).Pairwise (fun a b => |b.2| ≤ |a.2|) := by
  induction l with
  | nil => simp [insertAbsDesc]
  | cons y ys ih =>
    rw [insertAbsDesc]
    obtain ⟨hy, hys⟩ := List.pairwise_cons.mp h
    by_cases hxy : |y.2| ≤ |x.2|
    · rw [if_pos hxy]
      refine List.Pairwise.cons ?_ h
      intro z hz
      rcases List.mem_cons.mp hz with rfl | hz
      · exact hxy
      · exact le_trans (hy z hz) hxy
    · rw [if_neg hxy]
      refine List.Pairwise.cons ?_ (ih hys)
      intro z hz
      rcases (mem_insertAbsDesc z x ys).mp hz with rfl | hz
      · exact le_of_lt (lt_of_not_le hxy)
      · exact hy z hz

theorem sortByAbsDesc_pairwise (l : List (String × Rat)) :
    (sortByAbsDesc l).Pairwise (fun a b => |b.2| ≤ |a.2|) := by
  induction l with
  | nil => simp [sortByAbsDesc]
  | cons x xs ih => exact insertAbsDesc_pairwise x (sortByAbsDesc xs) ih

theorem mem_sortByAbsDesc (l : List (String × Rat)) (p : String × Rat) :
    p ∈ sortByAbsDesc l ↔ p ∈ l := by
  induction l with
  | nil => simp [sortByAbsDesc]
  | cons x xs ih =>
    show p ∈ insertAbsDesc x (sortByAbsDesc xs) ↔ _
    rw [mem_insertAbsDesc, ih]
    simp [List.mem_cons]

theorem tier1_ok_shape (ex : ExplainerHandle) (fv : List PyFloat)
    (names : List String) (w : List (String × Rat))
    (h : tier1Weights ex fv names = .ok w) :
    ∃ row : List PyFloat,
      w = sortByAbsDesc (names.enum.filterMap (fun p =>
        (row.get? p.1).map (fun x => (p.2, coerceNanZero x)))) := by
  unfold tier1Weights at h
  split at h
  · exact absurd h (by simp)
  · split at h
    · exact absurd h (by simp)
    · split at h
      · exact absurd h (by simp)
      · rename_i row hrow
        exact ⟨row, by injection h with hh; exact hh.symm⟩

theorem tier2_some_shape (m : ModelHandle) (names : List String)
    (w : List (String × Rat)) (h : tier2Weights m names = some w) :
    ∃ importances : List Rat,
      m.feature_importances_ = some importances
      ∧ w = sortByAbsDesc (names.enum.map (fun p => (p.2, importances.getD p.1 0))) := by
  unfold tier2Weights at h
  cases himp : m.feature_importances_ with
  | none => rw [himp] at h; exact absurd h (by simp)
  | some importances =>
    rw [himp] at h
    refine ⟨importances, rfl, ?_⟩
    injection h with hh
    exact hh.symm

theorem keys_tier1 (ex : ExplainerHandle) (fv : List PyFloat)
    (names : List String) (w : List (String × Rat))
    (h : tier1Weights ex fv names = .ok w) :
    ∀ p ∈ w, p.1 ∈ names := by
  obtain ⟨row, hw⟩ := tier1_ok_shape ex fv names w h
  intro p hp
  rw [hw, mem_sortByAbsDesc] at hp
  obtain ⟨⟨i, name⟩, hmem, hmk⟩ := List.mem_filterMap.mp hp
  obtain ⟨x, _, hx⟩ := Option.map_eq_some'.mp hmk
  have : p.1 = name := by rw [← hx]
  rw [this]
  exact List.snd_mem_of_mem_enum hmem

theorem keys_tier2 (m : ModelHandle) (names : List String)
    (w : List (String × Rat)) (h : tier2Weights m names = some w) :
    ∀ p ∈ w, p.1 ∈ names := by
  obtain ⟨importances, _, hw⟩ := tier2_some_shape m names w h
  intro p hp
  rw [hw, mem_sortByAbsDesc] at hp
  obtain ⟨⟨i, name⟩, hmem, hmk⟩ := List.mem_map.mp hp
  have : p.1 = name := by rw [← hmk]
  rw [this]
  exact List.snd_mem_of_mem_enum hmem

theorem keys_zeros (names : List String) :
    ∀ p ∈ zerosWeights names, p.1 ∈ names := by
  intro p hp
  obtain ⟨n, hn, hmk⟩ := List.mem_map.mp hp
  have : p.1 = n := by rw [← hmk]
  rw [this]
  exact hn

theorem load_models_ok_flag (env : LoadEnv) (st : ClassifierState)
    (h : (_load_models env st).1 = .ok ()) :
    (_load_models env st).2._models_loaded = true := by
  by_cases hml : st._models_loaded
  · simp [_load_models, hml]
  · cases hfile : env.classifierFile with
    | none => simp [_load_models, hml, hfile] at h
    | some res =>
      cases res with
      | error msg => simp [_load_models, hml, hfile] at h
      | ok m => simp [_load_models, hml, hfile]

theorem get_classifier_stable (c : Nat) :
    get_classifier ⟨some freshInstance, c⟩ = (freshInstance, ⟨some freshInstance, c⟩) := rfl

theorem get_classifier_first :
    get_classifier procInit = (freshInstance, ⟨some freshInstance, 1⟩) := rfl

theorem runCalls_stable (n c : Nat) :
    runCalls n ⟨some freshInstance, c⟩
      = (List.replicate n freshInstance, ⟨some freshInstance, c⟩) := by
  induction n with
  | zero => rfl
  | succ k ih =>
    simp only [runCalls, get_classifier_stable, ih, List.replicate_succ]

theorem keys_fallback (m? : Option ModelHandle) (names : List String) :
    ∀ p ∈ fallbackWeights m? names, p.1 ∈ names := by
  intro p hp
  cases m? with
  | none => exact keys_zeros names p hp
  | some m =>
    simp only [fallbackWeights] at hp
    cases hw : tier2Weights m names with
    | none =>
      rw [hw] at hp
      simp only [Option.getD_none] at hp
      exact keys_zeros names p hp
    | some w =>
      rw [hw] at hp
      simp only [Option.getD_some] at hp
      exact keys_tier2 m names w hw p hp

/-! ### Claim theorems -/

/-- C1: For every raw input on which the classifier's `predict_proba`
returns a two-element probability pair `[p0, p1]`, `TabularClassifier.predict`
returns the element at index 1 as the predicted probability and the
maximum of the pair as the confidence. -/
theorem c1_predict_positive_probability_and_confidence
    (env : LoadEnv) (m : ModelHandle) (ex? : Option ExplainerHandle) (b : Bool)
    (input : List (String × Option PyFloat)) (p0 p1 : Rat)
    (hp : m.predict_proba (_map_and_build_features input).1 = .ok [[p0, p1]]) :
    ∃ w, (predict env ⟨some m, ex?, true, b⟩ input).1 = .ok (p1, max p0 p1, w) := by
  cases hmb : _map_and_build_features input with
  | mk fv names =>
    have hp₁ : m.predict_proba fv = .ok [[p0, p1]] := by
      rw [hmb] at hp
      exact hp
    refine ⟨_compute_attribute_weights ⟨some m, ex?, true, b⟩ fv names, ?_⟩
    simp [predict, predictBody, hmb, hp₁, pyIndex, pyMax]

/-- Witness for C1 at a classifier answering `[0.3, 0.7]`: `predict`
returns probability `0.7` and confidence `0.7`. -/
theorem c1_witness :
    ∃ w, (predict envNoFiles okLoadedState []).1 = .ok (7/10, 7/10, w) := by
  have h := c1_predict_positive_probability_and_confidence envNoFiles okModel none true
    [] (3/10) (7/10) rfl
  have hmax : max (3/10 : Rat) (7/10) = 7/10 := max_eq_right (by norm_num)
  rw [hmax] at h
  exact h

/-- C6: when the mandatory classifier artifact file does not exist,
`ensure_loaded` fails with the `FileNotFoundError` condition (a
distinct exception class from the generic load-failure `Exception`),
`is_loaded` stays false and no partial loader state is retained: the
instance state is returned exactly unchanged, with both handles null
and the loaded flag unset. -/
theorem c6_missing_artifact_clean_failure (env : LoadEnv) (b : Bool)
    (hfile : env.classifierFile = none) :
    ensure_loaded env ⟨none, none, false, b⟩
      = (.error (.fileNotFound ("Prediction model not found at: " ++ _prediction_model_path)),
         ⟨none, none, false, b⟩)
    ∧ is_loaded (ensure_loaded env ⟨none, none, false, b⟩).2 = false
    ∧ (ensure_loaded env ⟨none, none, false, b⟩).2._prediction_model = none := by
  have h : ensure_loaded env ⟨none, none, false, b⟩
      = (.error (.fileNotFound ("Prediction model not found at: " ++ _prediction_model_path)),
         ⟨none, none, false, b⟩) := by
    simp [ensure_loaded, _load_models, hfile]
  refine ⟨h, ?_, ?_⟩
  · rw [h]
    rfl
  · rw [h]

/-- Witness for C6 in the environment with no artifact files. -/
theorem c6_witness :
    ensure_loaded envNoFiles ⟨none, none, false, false⟩
      = (.error (.fileNotFound ("Prediction model not found at: " ++ _prediction_model_path)),
         ⟨none, none, false, false⟩) :=
  (c6_missing_artifact_clean_failure envNoFiles false rfl).1

/-- C7 counterexample: with the mandatory artifact file missing, a
first `ensure_loaded` call from a fresh instance fails and leaves the
loaded flag false, so two successive calls execute the disk-load path
twice — refuting "calling `ensure_loaded` twice in sequence executes
the disk-load path at most once" as universally stated. -/
theorem c7_counterexample :
    diskLoadRuns freshInstance
      + diskLoadRuns (ensure_loaded envNoFiles freshInstance).2 = 2 := rfl

/-- C7 (amended): for every state with the loaded flag true,
`ensure_loaded` performs no load work and leaves all state unchanged;
and when the first of two sequential calls succeeds, the disk-load path
runs at most once in total and the second call is a no-op.  (After a
failed first call the flag remains false and the second call executes
the load path again.) -/
theorem c7_ensure_loaded_idempotent (env env₂ : LoadEnv) (st : ClassifierState) :
    (st._models_loaded = true →
      ensure_loaded env st = (.ok (), st) ∧ diskLoadRuns st = 0)
    ∧ ((ensure_loaded env st).1 = .ok () →
      diskLoadRuns st + diskLoadRuns (ensure_loaded env st).2 ≤ 1
      ∧ ensure_loaded env₂ (ensure_loaded env st).2
          = (.ok (), (ensure_loaded env st).2)) := by
  by_cases hml : st._models_loaded
  · have he : ensure_loaded env st = (.ok (), st) := by simp [ensure_loaded, hml]
    refine ⟨fun _ => ⟨he, by simp [diskLoadRuns, hml]⟩, fun _ => ?_⟩
    rw [he]
    exact ⟨by simp [diskLoadRuns, hml], by simp [ensure_loaded, hml]⟩
  · have h1 : ensure_loaded env st = _load_models env st := by
      simp [ensure_loaded, hml]
    refine ⟨fun hc => absurd hc (by simpa using hml), fun hok => ?_⟩
    rw [h1] at hok ⊢
    have hflag : (_load_models env st).2._models_loaded = true :=
      load_models_ok_flag env st hok
    refine ⟨?_, ?_⟩
    · simp [diskLoadRuns, hml, hflag]
    · simp [ensure_loaded, hflag]

/-- Witness for C7: with a loadable classifier, a successful first call
makes the second a no-op and the disk-load path runs once in total. -/
theorem c7_witness :
    diskLoadRuns freshInstance
      + diskLoadRuns (ensure_loaded envLoadable freshInstance).2 ≤ 1
    ∧ ensure_loaded envLoadable (ensure_loaded envLoadable freshInstance).2
        = (.ok (), (ensure_loaded envLoadable freshInstance).2) :=
  (c7_ensure_loaded_idempotent envLoadable envLoadable freshInstance).2 rfl

/-- C9: every one of `n` successive calls to the singleton accessor
returns the same single instance, at most one instance is ever created
(`creations = min n 1`), and the constructed instance has the loaded
flag unset — construction never triggers artifact loading. -/
theorem c9_singleton_identity (n : Nat) :
    (runCalls n procInit).1 = List.replicate n freshInstance
    ∧ (runCalls n procInit).2.creations = min n 1
    ∧ is_loaded freshInstance = false := by
  cases n with
  | zero => exact ⟨rfl, rfl, rfl⟩
  | succ k =>
    have h : runCalls (k + 1) procInit
        = (freshInstance :: List.replicate k freshInstance, ⟨some freshInstance, 1⟩) := by
      simp only [runCalls, get_classifier_first, runCalls_stable]
    refine ⟨?_, ?_, rfl⟩
    · rw [h, List.replicate_succ]
    · rw [h]
      show 1 = min (k + 1) 1
      omega

/-- C10: the public wrapper `predict_tabular` surfaces only
`ValueError`serrors; every non-`ValueError` exception raised by the
classifier (including load failures) is absorbed and the mock triple is
returned instead. -/
theorem c10_wrapper_raises_only_valueerror (env : LoadEnv) (st : ClassifierState)
    (mock : List (String × Option PyFloat) → Rat × Rat × List (String × Rat))
    (input : List (String × Option PyFloat)) :
    (∀ e, (predict_tabular env st mock input).1 = .error e → ∃ msg, e = .valueError msg)
    ∧ (∀ e, (predict env st input).1 = .error e → (∀ msg, e ≠ .valueError msg) →
        (predict_tabular env st mock input).1 = .ok (mock input)) := by
  cases hp : predict env st input with
  | mk r st₁ =>
    cases r with
    | ok t =>
      refine ⟨fun e he => ?_, fun e he hne => ?_⟩
      · simp [predict_tabular, hp] at he
      · simp at he
    | error err =>
      cases err with
      | valueError msg =>
        refine ⟨fun e he => ?_, fun e he hne => ?_⟩
        · simp [predict_tabular, hp] at he
          exact ⟨msg, he.symm⟩
        · simp at he
          subst he
          exact absurd rfl (hne msg)
      | fileNotFound msg =>
        refine ⟨fun e he => ?_, fun e he hne => ?_⟩
        · simp [predict_tabular, hp] at he
        · simp [predict_tabular, hp]
      | exception msg =>
        refine ⟨fun e he => ?_, fun e he hne => ?_⟩
        · simp [predict_tabular, hp] at he
        · simp [predict_tabular, hp]

/-- Witness for C10: with the artifact files missing, the wrapper
absorbs the `FileNotFoundError` and returns the mock triple. -/
theorem c10_witness :
    (predict_tabular envNoFiles freshInstance c10Mock []).1 = .ok (c10Mock []) :=
  (c10_wrapper_raises_only_valueerror envNoFiles freshInstance c10Mock []).2
    (.fileNotFound ("Prediction model not found at: " ++ _prediction_model_path)) rfl
    (fun msg h => by simp at h)

theorem fallback_tier_cases (m? : Option ModelHandle) (names : List String) :
    (∃ m w, m? = some m ∧ tier2Weights m names = some w ∧ fallbackWeights m? names = w)
    ∨ ((m? = none ∨ ∃ m, m? = some m ∧ m.feature_importances_ = none)
        ∧ fallbackWeights m? names = zerosWeights names) := by
  cases m? with
  | none => exact Or.inr ⟨Or.inl rfl, rfl⟩
  | some m =>
    cases himp : m.feature_importances_ with
    | none =>
      refine Or.inr ⟨Or.inr ⟨m, rfl, himp⟩, ?_⟩
      simp [fallbackWeights, tier2Weights, himp]
    | some imps =>
      refine Or.inl ⟨m, sortByAbsDesc (names.enum.map (fun p => (p.2, imps.getD p.1 0))),
        rfl, ?_, ?_⟩
      · simp [tier2Weights, himp]
      · simp [fallbackWeights, tier2Weights, himp]

/-- C2: `_compute_attribute_weights` never raises (it is total) and
always returns a mapping whose keys come from the feature-name list,
produced by exactly one of three tiers tried in order: the SHAP tier
when an explainer handle exists and its computation raises nothing,
else the intrinsic `feature_importances_` tier when present, else the
all-zeros mapping; any exception the explainer raises is absorbed and
never propagates. -/
theorem c2_attribute_weights_three_tiers (st : ClassifierState) (fv : List PyFloat)
    (names : List String) :
    (∀ p ∈ _compute_attribute_weights st fv names, p.1 ∈ names)
    ∧ ((∃ ex w, st._shap_explainer = some ex ∧ tier1Weights ex fv names = .ok w
          ∧ _compute_attribute_weights st fv names = w)
      ∨ (tier1Unavailable st fv names
          ∧ ∃ m w, st._prediction_model = some m ∧ tier2Weights m names = some w
          ∧ _compute_attribute_weights st fv names = w)
      ∨ (tier1Unavailable st fv names ∧ tier2Unavailable st
          ∧ _compute_attribute_weights st fv names = zerosWeights names)) := by
  have hfall : tier1Unavailable st fv names →
      _compute_attribute_weights st fv names = fallbackWeights st._prediction_model names →
      (tier1Unavailable st fv names
          ∧ ∃ m w, st._prediction_model = some m ∧ tier2Weights m names = some w
          ∧ _compute_attribute_weights st fv names = w)
      ∨ (tier1Unavailable st fv names ∧ tier2Unavailable st
          ∧ _compute_attribute_weights st fv names = zerosWeights names) := by
    intro hun hres
    rcases fallback_tier_cases st._prediction_model names with
      ⟨m, w, hm, ht2, hf⟩ | ⟨hunav2, hf⟩
    · exact Or.inl ⟨hun, m, w, hm, ht2, hres.trans hf⟩
    · exact Or.inr ⟨hun, hunav2, hres.trans hf⟩
  cases hex : st._shap_explainer with
  | some ex =>
    cases ht1 : tier1Weights ex fv names with
    | ok w =>
      have hres : _compute_attribute_weights st fv names = w := by
        simp [_compute_attribute_weights, hex, ht1]
      refine ⟨?_, Or.inl ⟨ex, w, rfl, ht1, hres⟩⟩
      rw [hres]
      exact keys_tier1 ex fv names w ht1
    | error e =>
      have hres : _compute_attribute_weights st fv names
          = fallbackWeights st._prediction_model names := by
        simp [_compute_attribute_weights, hex, ht1]
      refine ⟨?_, Or.inr (hfall (Or.inr ⟨ex, e, hex, ht1⟩) hres)⟩
      rw [hres]
      exact keys_fallback _ _
  | none =>
    have hres : _compute_attribute_weights st fv names
        = fallbackWeights st._prediction_model names := by
      simp [_compute_attribute_weights, hex]
    refine ⟨?_, Or.inr (hfall (Or.inl hex) hres)⟩
    rw [hres]
    exact keys_fallback _ _

/-- Witness for C2: applying the tier contract at a loaded state with
no explainer and no intrinsic importances. -/
theorem c2_witness : "pl_orbper" ∈ EXPECTED_FEATURES :=
  (c2_attribute_weights_three_tiers okLoadedState [] EXPECTED_FEATURES).1
    ("pl_orbper", 0) (by decide)

/-- C5: every weights mapping returned by the SHAP tier or by the
intrinsic-importance tier enumerates features in non-increasing order
of absolute weight. -/
theorem c5_weights_sorted_desc_abs (ex : ExplainerHandle) (m : ModelHandle)
    (fv : List PyFloat) (names names₂ : List String)
    (w w₂ : List (String × Rat))
    (h1 : tier1Weights ex fv names = .ok w)
    (h2 : tier2Weights m names₂ = some w₂) :
    w.Pairwise (fun a b => |b.2| ≤ |a.2|)
    ∧ w₂.Pairwise (fun a b => |b.2| ≤ |a.2|) := by
  obtain ⟨row, hw⟩ := tier1_ok_shape ex fv names w h1
  obtain ⟨imps, _, hw₂⟩ := tier2_some_shape m names₂ w₂ h2
  constructor
  · rw [hw]
    exact sortByAbsDesc_pairwise _
  · rw [hw₂]
    exact sortByAbsDesc_pairwise _

/-- Witness for C5 at a three-feature example with a not-a-number
attribution and intrinsic importances `[2, -5]`. -/
theorem c5_witness :
    tier1Weights c5Explainer [] c5Names = .ok c5W
    ∧ tier2Weights c5Model c5Names = some c5W₂
    ∧ c5W.Pairwise (fun a b => |b.2| ≤ |a.2|)
    ∧ c5W₂.Pairwise (fun a b => |b.2| ≤ |a.2|) := by
  have h1 : tier1Weights c5Explainer [] c5Names = .ok c5W := by rfl
  have h2 : tier2Weights c5Model c5Names = some c5W₂ := by rfl
  have h := c5_weights_sorted_desc_abs c5Explainer c5Model [] c5Names c5Names c5W c5W₂ h1 h2
  exact ⟨h1, h2, h.1, h.2⟩

/-- C8 counterexample: in the corrupted state (loaded flag true,
classifier handle null) `predict` surfaces the generic wrapped
`Exception` — the same exception class that a routine prediction
failure produces — so the invariant violation is not distinguishable
from a routine Prediction-Failure by exception type, only by message
text. -/
theorem c8_counterexample :
    (predict envNoFiles invariantBrokenState []).1
      = .error (.exception ("Prediction error: " ++ invariantViolationMsg))
    ∧ (predict envNoFiles routineFailState []).1
      = .error (.exception "Prediction error: boom")
    ∧ sameExcClass (.exception ("Prediction error: " ++ invariantViolationMsg))
        (.exception "Prediction error: boom") = true :=
  ⟨rfl, rfl, rfl⟩

/-- C8 (amended): in every state with the loaded flag true and a null
classifier handle, `predict` fails with the generic wrapped `Exception`
carrying the invariant-violation message — distinguishable from a
user-facing `ValueError` by exception class, but from a routine
Prediction-Failure only by its message text, because the inner
invariant `Exception` is caught and re-wrapped by the same generic
handler. -/
theorem c8_invariant_violation_wrapped (env : LoadEnv) (ex? : Option ExplainerHandle)
    (b : Bool) (input : List (String × Option PyFloat)) :
    (predict env ⟨none, ex?, true, b⟩ input).1
      = .error (.exception ("Prediction error: " ++ invariantViolationMsg))
    ∧ ∀ msg, (predict env ⟨none, ex?, true, b⟩ input).1 ≠ .error (.valueError msg) := by
  cases hmb : _map_and_build_features input with
  | mk fv names =>
    have h : (predict env ⟨none, ex?, true, b⟩ input).1
        = .error (.exception ("Prediction error: " ++ invariantViolationMsg)) := by
      simp [predict, predictBody, hmb, PyExc.message]
    refine ⟨h, fun msg hc => ?_⟩
    rw [h] at hc
    simp at hc

/-- Witness for C8 at the concrete corrupted state. -/
theorem c8_witness :
    (predict envNoFiles invariantBrokenState []).1
      = .error (.exception ("Prediction error: " ++ invariantViolationMsg)) :=
  (c8_invariant_violation_wrapped envNoFiles none true []).1

/-- C3 counterexample: the input `{pl_orbper: 1.0, sy_gmag: 5.0}` has
one non-null expected-feature entry (fewer than 15), and the expected
feature `sy_imag` is absent from the null-filtered input — yet its slot
in the output vector receives the alias value `5.0`, not the
not-a-number marker, because magnitude-band alias resolution fills the
`sy_imag` slot from `sy_gmag`. -/
theorem c3_counterexample :
    1 ≤ nonNullExpectedCount c3Input ∧ nonNullExpectedCount c3Input < 15
    ∧ dictGet (filterNull c3Input) "sy_imag" = none
    ∧ "sy_imag" ∈ EXPECTED_FEATURES
    ∧ (_map_and_build_features c3Input).1.get? 14 = some (PyFloat.val 5)
    ∧ PyFloat.val 5 ≠ PyFloat.nan := by
  refine ⟨by decide, by decide, by decide, by decide, by decide, by decide⟩

/-- C3 (amended): for every raw input with at least one but fewer than
15 non-null expected-feature entries, the feature mapper never raises
and returns a vector of length exactly 15 in the fixed expected order;
every expected feature absent from the null-filtered input after
magnitude-band alias resolution receives exactly the not-a-number
marker; alias resolution changes the lookup of no name other than
`sy_imag`; and when no `sy_*mag` field is present the null-filtered
input is used as-is, so absence in the null-filtered input alone
decides the not-a-number slots. -/
theorem c3_mapper_nan_slots (input : List (String × Option PyFloat))
    (h1 : 1 ≤ nonNullExpectedCount input) (h2 : nonNullExpectedCount input < 15) :
    (_map_and_build_features input).1.length = 15
    ∧ (∀ i name, EXPECTED_FEATURES.get? i = some name →
        dictGet (resolveSyMag (filterNull input)) name = none →
        (_map_and_build_features input).1.get? i = some PyFloat.nan)
    ∧ (∀ name, name ≠ "sy_imag" →
        dictGet (resolveSyMag (filterNull input)) name = dictGet (filterNull input) name)
    ∧ (syMags (filterNull input) = [] →
        resolveSyMag (filterNull input) = filterNull input) := by
  refine ⟨?_, ?_, ?_, ?_⟩
  · simp [_map_and_build_features, EXPECTED_FEATURES]
  · intro i name hname habs
    have hmap : (_map_and_build_features input).1.get? i
        = (EXPECTED_FEATURES.get? i).map
            (fun nm => (dictGet (resolveSyMag (filterNull input)) nm).getD PyFloat.nan) := by
      simp [_map_and_build_features, List.get?_map]
    rw [hmap, hname]
    simp [habs]
  · intro name hne
    cases hc : dictGet (syMags (filterNull input)) "sy_imag" with
    | some v =>
      simp only [resolveSyMag, hc]
      exact dictGet_dictSet_ne _ _ _ _ hne
    | none =>
      simp only [resolveSyMag, hc]
      cases hm : syMags (filterNull input) with
      | nil => simp only [hm]
      | cons kv tl =>
        simp only [hm]
        exact dictGet_dictSet_ne _ _ _ _ hne
  · intro hm
    have hc : dictGet (syMags (filterNull input)) "sy_imag" = none := by
      rw [hm]
      rfl
    unfold resolveSyMag
    rw [hc, hm]

/-- Witness for C3 (amended) at a one-entry input: the vector has
length 15 and the `pl_eqt` slot is the not-a-number marker. -/
theorem c3_witness :
    (_map_and_build_features c3WitnessInput).1.length = 15
    ∧ (_map_and_build_features c3WitnessInput).1.get? 2 = some PyFloat.nan :=
  ⟨(c3_mapper_nan_slots c3WitnessInput (by decide) (by decide)).1,
   (c3_mapper_nan_slots c3WitnessInput (by decide) (by decide)).2.1 2 "pl_eqt"
     rfl (by decide)⟩

/-- C4: for every raw input with multiple magnitude-band alias fields,
the canonical `sy_imag` slot is filled with the canonical value when
`sy_imag` is present in the null-filtered input; otherwise it is filled
with the first alias value in input order — exactly one of the alias
values, chosen deterministically (no averaging, no error). -/
theorem c4_alias_choice (input : List (String × Option PyFloat))
    (hmult : 2 ≤ (syMags (filterNull input)).length) :
    (∀ v, dictGet (filterNull input) "sy_imag" = some v →
        dictGet (resolveSyMag (filterNull input)) "sy_imag" = some v
        ∧ (_map_and_build_features input).1.get? 14 = some v)
    ∧ (dictGet (filterNull input) "sy_imag" = none →
        dictGet (resolveSyMag (filterNull input)) "sy_imag"
          = ((syMags (filterNull input)).head?.map Prod.snd)
        ∧ (_map_and_build_features input).1.get? 14
          = ((syMags (filterNull input)).head?.map Prod.snd))
    ∧ (∀ v, dictGet (resolveSyMag (filterNull input)) "sy_imag" = some v →
        v ∈ (syMags (filterNull input)).map Prod.snd) := by
  have hsy := syMags_dictGet (filterNull input)
  have h14 : (_map_and_build_features input).1.get? 14
      = some ((dictGet (resolveSyMag (filterNull input)) "sy_imag").getD PyFloat.nan) := by
    have hmap : (_map_and_build_features input).1.get? 14
        = (EXPECTED_FEATURES.get? 14).map
            (fun nm => (dictGet (resolveSyMag (filterNull input)) nm).getD PyFloat.nan) := by
      simp [_map_and_build_features, List.get?_map]
    rw [hmap, show EXPECTED_FEATURES.get? 14 = some "sy_imag" from rfl]
    rfl
  refine ⟨?_, ?_, ?_⟩
  · intro v hv
    have hres : dictGet (resolveSyMag (filterNull input)) "sy_imag" = some v := by
      unfold resolveSyMag
      rw [hsy.trans hv]
      exact dictGet_dictSet_same _ _ _
    refine ⟨hres, ?_⟩
    rw [h14, hres]
    rfl
  · intro hv
    have hnone : dictGet (syMags (filterNull input)) "sy_imag" = none := hsy.trans hv
    cases hm : syMags (filterNull input) with
    | nil =>
      rw [hm] at hmult
      simp at hmult
    | cons kv tl =>
      have hres : dictGet (resolveSyMag (filterNull input)) "sy_imag" = some kv.2 := by
        unfold resolveSyMag
        rw [hnone, hm]
        exact dictGet_dictSet_same _ _ _
      constructor
      · rw [hres]
        rfl
      · rw [h14, hres]
        rfl
  · intro v hv
    cases hc : dictGet (syMags (filterNull input)) "sy_imag" with
    | some u =>
      have hres : dictGet (resolveSyMag (filterNull input)) "sy_imag" = some u := by
        unfold resolveSyMag
        rw [hc]
        exact dictGet_dictSet_same _ _ _
      rw [hres] at hv
      injection hv with huv
      rw [← huv]
      exact List.mem_map.mpr ⟨("sy_imag", u), dictGet_some_mem _ _ _ hc, rfl⟩
    | none =>
      cases hm : syMags (filterNull input) with
      | nil =>
        have hid : resolveSyMag (filterNull input) = filterNull input := by
          unfold resolveSyMag
          rw [hc, hm]
        rw [hid] at hv
        rw [hsy.symm.trans hc] at hv
        simp at hv
      | cons kv tl =>
        have hres : dictGet (resolveSyMag (filterNull input)) "sy_imag" = some kv.2 := by
          unfold resolveSyMag
          rw [hc, hm]
          exact dictGet_dictSet_same _ _ _
        rw [hres] at hv
        injection hv with huv
        rw [← huv]
        exact List.mem_map.mpr ⟨kv, List.mem_cons_self _ _, rfl⟩

/-- Witness for C4 at the input `{sy_gmag: 2.0, sy_zmag: 3.0}`: the
canonical slot receives the first alias value. -/
theorem c4_witness :
    dictGet (resolveSyMag (filterNull c4Input)) "sy_imag"
      = ((syMags (filterNull c4Input)).head?.map Prod.snd)
    ∧ (_map_and_build_features c4Input).1.get? 14
      = ((syMags (filterNull c4Input)).head?.map Prod.snd) :=
  (c4_alias_choice c4Input (by decide)).2.1 (by decide)

end ExoNova
